import Mathlib

/-!
Shallow embedding of `src/serverless-get-segment-id/functions/get-segment-id.js`
(the Flex Insights segment-id lookup serverless function).

Modelling conventions:
* Timestamps (`Date.now()` values, expiry fields) are `Nat` milliseconds; the
  several `Date.now()` reads inside one function call are modelled as a single
  `now` parameter.
* The mutable global `tokenCache` becomes an explicit `TokenCache` value that
  every stateful function takes and returns.
* `axios` network calls are modelled by environments that give each call's
  response; the functions additionally return how many calls of each kind
  they performed.
* A thrown JS `Error` is an explicit `JsError` value carried in `Except`
  (message, plus the optional `error.response.status`).
* JS truthiness on strings (`!token` is true for `null` and `""`) and on
  numbers (`!expiry` is true for `null` and `0`) is modelled explicitly.
* All string work is done on `List Char` (JS `split`, `trim`, `toLowerCase`,
  `includes` and the leading-field regex are reimplemented there), keeping
  everything kernel-computable.
-/

/-- The global token cache of the source in declaration order:
`sst`, `sstExpiry`, `tt`, `ttExpiry` (all initially `null`). -/
structure TokenCache where
  sst : Option String
  sstExpiry : Option Nat
  tt : Option String
  ttExpiry : Option Nat
deriving DecidableEq, Repr

/-- The cache at process start: all four fields `null`. -/
def emptyCache : TokenCache := ⟨none, none, none, none⟩

/-- `isCacheValid(expiryTimestamp)`: false on a falsy expiry (absent or `0`),
else `Date.now() < expiryTimestamp - 60000`. -/
def isCacheValid (expiryTimestamp : Option Nat) (now : Nat) : Bool :=
  match expiryTimestamp with
  | none => false
  | some e => if e = 0 then false else decide ((now : Int) < (e : Int) - 60000)

/-- `invalidateTokenCache()`: sets `tt`, `ttExpiry`, `sst`, `sstExpiry` to `null`. -/
def invalidateTokenCache (_c : TokenCache) : TokenCache :=
  ⟨none, none, none, none⟩

/-- A thrown JS error: its `message` and, when it came from an HTTP response,
`error.response.status`. -/
structure JsError where
  message : String
  status : Option Nat
deriving DecidableEq, Repr

/-- JS string truthiness: `null`/absent and `""` are falsy. -/
def truthyStr : Option String → Bool
  | none => false
  | some s => s != ""

/-- `str1.startsWith-like` check on char lists (helper for `includes`). -/
def startsWithList : List Char → List Char → Bool
  | [], _ => true
  | _ :: _, [] => false
  | p :: ps, c :: cs => p == c && startsWithList ps cs

/-- JS `String.prototype.includes`: `pat` occurs contiguously in `s`. -/
def includesList (s pat : List Char) : Bool :=
  startsWithList pat s ||
    match s with
    | [] => false
    | _ :: rest => includesList rest pat

/-- ASCII lowercasing of one char (JS `toLowerCase` on the ASCII inputs the
source compares against). -/
def lowerChar (c : Char) : Char :=
  if c.toNat ≥ 65 ∧ c.toNat ≤ 90 then Char.ofNat (c.toNat + 32) else c

/-- Lowercase a whole char list. -/
def toLowerList (cs : List Char) : List Char := cs.map lowerChar

/-- `isAuthError(error)`: status 401 or 403, or the lowercased message
contains "auth" or "unauthorized". -/
def isAuthError (e : JsError) : Bool :=
  e.status == some 401 || e.status == some 403 ||
  includesList (toLowerList e.message.data) "auth".data ||
  includesList (toLowerList e.message.data) "unauthorized".data

/-- Responses the authentication endpoints give in one invocation:
`loginToken` is `response.data?.userLogin?.token` of the login call,
`exchangeToken` is `response.data?.userToken?.token` of the token-exchange
call (`none` models a response missing the field). -/
structure AuthEnv where
  loginToken : Option String
  exchangeToken : Option String
deriving DecidableEq, Repr

/-- How many authentication network calls a token operation performed. -/
structure CallCounts where
  loginCalls : Nat
  exchangeCalls : Nat
deriving DecidableEq, Repr

/-- `getSuperSecuredToken(username, password)`: one login POST; throws
`Authentication failed` when the response lacks a (truthy) token, else caches
the SST with expiry `now + 14 days`. -/
def getSuperSecuredToken (env : AuthEnv) (now : Nat) (c : TokenCache) :
    Except JsError TokenCache :=
  match env.loginToken with
  | none => .error ⟨"Authentication failed", none⟩
  | some tok =>
    if tok = "" then .error ⟨"Authentication failed", none⟩
    else .ok { c with sst := some tok,
                      sstExpiry := some (now + 14 * 24 * 60 * 60 * 1000) }

/-- `getTempToken()`: one token-exchange GET; throws
`Failed to get temporary token` when the response lacks a (truthy) token, else
caches the TT with expiry `now + 10 minutes` and returns it. -/
def getTempToken (env : AuthEnv) (now : Nat) (c : TokenCache) :
    Except JsError (String × TokenCache) :=
  match env.exchangeToken with
  | none => .error ⟨"Failed to get temporary token", none⟩
  | some tok =>
    if tok = "" then .error ⟨"Failed to get temporary token", none⟩
    else .ok (tok, { c with tt := some tok,
                            ttExpiry := some (now + 10 * 60 * 1000) })

/-- `getCachedTempToken(username, password)`: return the cached TT when truthy
and valid; otherwise refresh the SST first when it is falsy or invalid, then
exchange for a fresh TT; returns the cache's TT. The result also carries the
post-state of the global cache and the number of login/exchange calls made. -/
def getCachedTempToken (env : AuthEnv) (now : Nat) (c : TokenCache) :
    Except JsError String × TokenCache × CallCounts :=
  if truthyStr c.tt && isCacheValid c.ttExpiry now then
    (.ok (c.tt.getD ""), c, ⟨0, 0⟩)
  else if !truthyStr c.sst || !isCacheValid c.sstExpiry now then
    match getSuperSecuredToken env now c with
    | .error e => (.error e, c, ⟨1, 0⟩)
    | .ok c1 =>
      match getTempToken env now c1 with
      | .error e => (.error e, c1, ⟨1, 1⟩)
      | .ok (_tok, c2) => (.ok (c2.tt.getD ""), c2, ⟨1, 1⟩)
  else
    match getTempToken env now c with
    | .error e => (.error e, c, ⟨0, 1⟩)
    | .ok (_tok, c2) => (.ok (c2.tt.getD ""), c2, ⟨0, 1⟩)

/-- The not-found error thrown by `findExternalIdElements` when zero elements
match: message embeds the external id, no HTTP status attached. -/
def notFoundError (externalId : String) : JsError :=
  ⟨"External ID '" ++ externalId ++ "' not found in Flex Insights", none⟩

/-- Outcome of one polling GET on the execution URI: a response that resolved
(axios resolves on 2xx) with its status and body, or a rejection carrying a
`JsError`. -/
inductive PollResult where
  | success (status : Nat) (data : String)
  | failure (e : JsError)
deriving DecidableEq, Repr

/-- Responses the report endpoints give in one pipeline attempt:
`validElements` is the `validElements.items[*].element.uri` list of the
metadata POST (or its rejection), `executeUri` is `response.data?.uri` of the
execute POST (or its rejection), `pollAttempts i` the outcome of the
`i`-th polling GET. -/
structure PipelineEnv where
  validElements : Except JsError (List String)
  executeUri : Except JsError (Option String)
  pollAttempts : Nat → PollResult

/-- How many report network calls one pipeline attempt performed. -/
structure PipeCounts where
  resolveCalls : Nat
  executeCalls : Nat
  pollCalls : Nat
deriving DecidableEq, Repr

/-- `findExternalIdElements(token, ws, displayForm, externalId)`: one metadata
POST; when the items list is empty (falsy `length`) it throws the not-found
error, else returns the element uris. -/
def findExternalIdElements (env : PipelineEnv) (externalId : String) :
    Except JsError (List String) :=
  match env.validElements with
  | .error e => .error e
  | .ok items =>
    if items.length = 0 then .error (notFoundError externalId) else .ok items

/-- `executeReport(token, ws, report, externalId)`: resolves the elements
first, then one execute POST; throws `Report execution failed` when the
response lacks a truthy uri. The count records that the execute POST is only
issued after a successful resolve. -/
def executeReport (env : PipelineEnv) (externalId : String) :
    Except JsError String × PipeCounts :=
  match findExternalIdElements env externalId with
  | .error e => (.error e, ⟨1, 0, 0⟩)
  | .ok _elems =>
    match env.executeUri with
    | .error e => (.error e, ⟨1, 1, 0⟩)
    | .ok none => (.error ⟨"Report execution failed", none⟩, ⟨1, 1, 0⟩)
    | .ok (some u) =>
      if u = "" then (.error ⟨"Report execution failed", none⟩, ⟨1, 1, 0⟩)
      else (.ok u, ⟨1, 1, 0⟩)

/-- The poller's attempt ceiling (`for (let i = 0; i < 10; i++)`). -/
def maxAttempts : Nat := 10

/-- The poller's sleep between attempts, in ms (`setTimeout(resolve, 1000)`);
the wait itself is not part of the embedding. -/
def intervalMs : Nat := 1000

/-- The timeout error after all attempts. -/
def timeoutError : JsError := ⟨"Report timeout after 10 seconds", none⟩

/-- One-attempt body of `downloadReportCsv`'s loop plus recursion on the
remaining attempts: a resolved response returns its data on status 200 and
otherwise falls through to the next attempt; a rejection rethrows unless its
status is 202. Also counts the GETs performed. -/
def downloadLoop (attempts : Nat → PollResult) (i : Nat) :
    Nat → Except JsError String × Nat
  | 0 => (.error timeoutError, 0)
  | fuel + 1 =>
    match attempts i with
    | .success status data =>
      if status = 200 then (.ok data, 1)
      else
        let r := downloadLoop attempts (i + 1) fuel
        (r.1, r.2 + 1)
    | .failure e =>
      if e.status ≠ some 202 then (.error e, 1)
      else
        let r := downloadLoop attempts (i + 1) fuel
        (r.1, r.2 + 1)

/-- `downloadReportCsv(token, reportExecution)`: up to `maxAttempts` polling
GETs starting at attempt 0. -/
def downloadReportCsv (attempts : Nat → PollResult) :
    Except JsError String × Nat :=
  downloadLoop attempts 0 maxAttempts

/-- JS whitespace as relevant to the parser's `trim` calls. -/
def jsWhitespace (c : Char) : Bool :=
  c = ' ' || c = '\t' || c = '\n' || c = '\r'

/-- JS `String.prototype.trim` on a char list. -/
def jsTrimList (cs : List Char) : List Char :=
  ((cs.dropWhile jsWhitespace).reverse.dropWhile jsWhitespace).reverse

/-- JS `split('\n')` on a char list (every separator splits; no collapsing). -/
def splitLinesChar : List Char → List (List Char)
  | [] => [[]]
  | c :: rest =>
    if c = '\n' then [] :: splitLinesChar rest
    else
      match splitLinesChar rest with
      | [] => [[c]]
      | l :: ls => (c :: l) :: ls

/-- A char ends the leading field of the regex `^"?([^",]+)"?`. -/
def fieldStop (c : Char) : Bool := c = ',' || c = '"'

/-- `line.match(/^"?([^",]+)"?/)?.[1]`: after an optional leading double
quote, the maximal nonempty run of chars that are neither `,` nor `"`;
`none` when that run is empty (the regex fails to match, also after
backtracking over the optional quote). -/
def leadFieldChars (cs : List Char) : Option (List Char) :=
  let body :=
    match cs with
    | '"' :: rest => rest.takeWhile (fun c => !fieldStop c)
    | _ => cs.takeWhile (fun c => !fieldStop c)
  if body.isEmpty then none else some body

/-- `parseSegmentIds(csvData)`: empty list on a non-string (`none`) or falsy
input; trim the input, split on newlines, empty list when at most one row;
else for each row after the header take the leading field, trim it, and keep
the truthy (nonempty) results in row order. -/
def parseSegmentIds (csvData : Option String) : List String :=
  match csvData with
  | none => []
  | some s =>
    if s = "" then []
    else
      let lines := splitLinesChar (jsTrimList s.data)
      if lines.length ≤ 1 then []
      else
        ((lines.drop 1).filterMap
            (fun line => (leadFieldChars line).map
              (fun f => String.mk (jsTrimList f)))).filter
          (fun f => f != "")

/-- One pipeline attempt of the handler's inner try block:
`executeReport` then `downloadReportCsv` then `parseSegmentIds`, with the
call counts of the attempt. -/
def runPipeline (env : PipelineEnv) (externalId : String) :
    Except JsError (List String) × PipeCounts :=
  match executeReport env externalId with
  | (.error e, k) => (.error e, k)
  | (.ok _uri, k) =>
    match downloadReportCsv env.pollAttempts with
    | (.error e, n) => (.error e, { k with pollCalls := n })
    | (.ok csv, n) => (.ok (parseSegmentIds (some csv)), { k with pollCalls := n })

/-- External responses one whole handler invocation can consume: the
authentication endpoints and the report endpoints of the first attempt, and
of the retry when one happens. -/
structure HandlerEnv where
  auth1 : AuthEnv
  now1 : Nat
  pipe1 : PipelineEnv
  auth2 : AuthEnv
  now2 : Nat
  pipe2 : PipelineEnv

/-- What one handler invocation did: the HTTP-equivalent status and body of
its response, the final cache, how many pipeline attempts ran, whether the
cache was invalidated, and the call counts of each phase. -/
structure HandlerOut where
  status : Nat
  body : Except String (List String)
  cache : TokenCache
  attempts : Nat
  didInvalidate : Bool
  auth1Counts : CallCounts
  auth2Counts : CallCounts
  pipe1Counts : PipeCounts
  pipe2Counts : PipeCounts

/-- Zero authentication calls. -/
def noAuthCalls : CallCounts := ⟨0, 0⟩

/-- Zero report calls. -/
def noPipeCalls : PipeCounts := ⟨0, 0, 0⟩

/-- The handler's core (after the `TaskSid` and environment-variable guards):
get a token, run the pipeline; on a pipeline failure that `isAuthError`
classifies as auth while `tokenCache.tt` is truthy, invalidate the cache,
get a fresh token and run the pipeline once more; every error that still
escapes becomes a 500 response carrying `error.message`. -/
def handlerCore (henv : HandlerEnv) (taskSid : String) (c0 : TokenCache) :
    HandlerOut :=
  match getCachedTempToken henv.auth1 henv.now1 c0 with
  | (.error e, c1, k1) =>
    ⟨500, .error e.message, c1, 0, false, k1, noAuthCalls, noPipeCalls, noPipeCalls⟩
  | (.ok _tok, c1, k1) =>
    match runPipeline henv.pipe1 taskSid with
    | (.ok ids, p1) =>
      ⟨200, .ok ids, c1, 1, false, k1, noAuthCalls, p1, noPipeCalls⟩
    | (.error e, p1) =>
      if isAuthError e && truthyStr c1.tt then
        match getCachedTempToken henv.auth2 henv.now2 (invalidateTokenCache c1) with
        | (.error e2, c3, k2) =>
          ⟨500, .error e2.message, c3, 1, true, k1, k2, p1, noPipeCalls⟩
        | (.ok _tok2, c3, k2) =>
          match runPipeline henv.pipe2 taskSid with
          | (.ok ids, p2) =>
            ⟨200, .ok ids, c3, 2, true, k1, k2, p1, p2⟩
          | (.error e2, p2) =>
            ⟨500, .error e2.message, c3, 2, true, k1, k2, p1, p2⟩
      else
        ⟨500, .error e.message, c1, 1, false, k1, noAuthCalls, p1, noPipeCalls⟩

/-- An attempt outcome the poller treats as "not yet ready": HTTP 202,
whether it arrived as a resolved response or as a rejection. -/
def isNotReady : PollResult → Bool
  | .success status _ => status == 202
  | .failure e => e.status == some 202

/-- Cache states reachable from the initial empty cache by any sequence of
`getCachedTempToken` invocations (any environment, any clock) and
`invalidateTokenCache`. -/
inductive ReachableCache : TokenCache → Prop where
  | init : ReachableCache emptyCache
  | token (env : AuthEnv) (now : Nat) {c : TokenCache} :
      ReachableCache c → ReachableCache (getCachedTempToken env now c).2.1
  | inval {c : TokenCache} :
      ReachableCache c → ReachableCache (invalidateTokenCache c)

/-- Invariant of reachable caches: each token is absent exactly when its
expiry is, a stored TT is never the empty string, and the TT expiry exceeds
the SST expiry by at most 540000 ms (the 10-minute TT TTL minus the
60-second validity margin). -/
def CacheInv (c : TokenCache) : Prop :=
  (c.tt = none ↔ c.ttExpiry = none) ∧
  (c.sst = none ↔ c.sstExpiry = none) ∧
  (∀ t, c.tt = some t → t ≠ "") ∧
  (∀ te, c.ttExpiry = some te → ∃ se, c.sstExpiry = some se ∧ te ≤ se + 540000)

/-- Authentication environment where both endpoints answer with tokens. -/
def goodAuth : AuthEnv := ⟨some "SST1", some "TT1"⟩

/-- A cache holding a valid TT at any clock below 940000 ms. -/
def hitCache : TokenCache := ⟨some "sst0", some 2000000, some "tt0", some 1000000⟩

/-- Pipeline responses whose metadata query matches zero elements. -/
def emptyElementsPipe : PipelineEnv :=
  ⟨.ok [], .ok none, fun _ => .failure ⟨"", some 202⟩⟩

/-- Handler environment for a lookup whose identifier matches zero elements
on both attempts, starting from a cache hit. -/
def notFoundEnv : HandlerEnv :=
  ⟨goodAuth, 0, emptyElementsPipe, goodAuth, 5, emptyElementsPipe⟩

/-- Handler environment whose first pipeline attempt is rejected with HTTP
401 at the metadata query and whose second attempt succeeds end to end. -/
def retry401Env : HandlerEnv :=
  ⟨goodAuth, 0,
   ⟨.error ⟨"Request failed with status code 401", some 401⟩, .ok none,
    fun _ => .failure ⟨"", some 202⟩⟩,
   goodAuth, 5,
   ⟨.ok ["/uri/1"], .ok (some "/exec"),
    fun _ => .success 200 "header\n7,a\n"⟩⟩

theorem truthyStr_some {s : String} (h : s ≠ "") : truthyStr (some s) = true := by
  simp [truthyStr, h]

theorem isCacheValid_iff (o : Option Nat) (now : Nat) :
    isCacheValid o now = true ↔ ∃ e, o = some e ∧ (now : Int) < (e : Int) - 60000 := by
  cases o with
  | none => simp [isCacheValid]
  | some e =>
    by_cases h0 : e = 0
    · subst h0
      simp only [isCacheValid, if_pos rfl]
      constructor
      · intro h; cases h
      · rintro ⟨e, he, hlt⟩
        cases he
        omega
    · simp only [isCacheValid, if_neg h0, decide_eq_true_eq, Option.some.injEq]
      constructor
      · intro h; exact ⟨e, rfl, h⟩
      · rintro ⟨f, rfl, hlt⟩; exact hlt

theorem isCacheValid_false_le {te now : Nat}
    (h : isCacheValid (some te) now = false) : te ≤ now + 60000 := by
  by_cases h0 : te = 0
  · omega
  · simp only [isCacheValid, if_neg h0, decide_eq_false_iff_not, not_lt] at h
    omega

theorem getSuperSecuredToken_ok {env : AuthEnv} {now : Nat} {c c1 : TokenCache}
    (h : getSuperSecuredToken env now c = .ok c1) :
    ∃ tok, tok ≠ "" ∧ env.loginToken = some tok ∧
      c1 = { c with sst := some tok,
                    sstExpiry := some (now + 14 * 24 * 60 * 60 * 1000) } := by
  cases he : env.loginToken with
  | none => simp [getSuperSecuredToken, he] at h
  | some tok =>
    by_cases h0 : tok = ""
    · simp [getSuperSecuredToken, he, h0] at h
    · simp only [getSuperSecuredToken, he, if_neg h0, Except.ok.injEq] at h
      exact ⟨tok, h0, rfl, h.symm⟩

theorem getTempToken_ok {env : AuthEnv} {now : Nat} {c c2 : TokenCache} {t : String}
    (h : getTempToken env now c = .ok (t, c2)) :
    t ≠ "" ∧ env.exchangeToken = some t ∧
      c2 = { c with tt := some t, ttExpiry := some (now + 10 * 60 * 1000) } := by
  cases he : env.exchangeToken with
  | none => simp [getTempToken, he] at h
  | some tok =>
    by_cases h0 : tok = ""
    · simp [getTempToken, he, h0] at h
    · simp only [getTempToken, he, if_neg h0, Except.ok.injEq, Prod.mk.injEq] at h
      obtain ⟨h1, h2⟩ := h
      subst h1
      exact ⟨h0, rfl, h2.symm⟩

theorem getCachedTempToken_hit (env : AuthEnv) (now : Nat) (c : TokenCache)
    (ht : truthyStr c.tt = true) (hv : isCacheValid c.ttExpiry now = true) :
    getCachedTempToken env now c = (.ok (c.tt.getD ""), c, ⟨0, 0⟩) := by
  unfold getCachedTempToken
  rw [if_pos (by rw [ht, hv]; rfl)]

theorem getCachedTempToken_exchange (env : AuthEnv) (now : Nat) (c : TokenCache)
    (x : String)
    (hmiss : (truthyStr c.tt && isCacheValid c.ttExpiry now) = false)
    (hs : truthyStr c.sst = true) (hv : isCacheValid c.sstExpiry now = true)
    (hx : env.exchangeToken = some x) (hxne : x ≠ "") :
    getCachedTempToken env now c =
      (.ok x, { c with tt := some x, ttExpiry := some (now + 10 * 60 * 1000) },
       ⟨0, 1⟩) := by
  unfold getCachedTempToken
  rw [if_neg (by simp [hmiss]), if_neg (by simp [hs, hv])]
  have h3 : getTempToken env now c =
      .ok (x, { c with tt := some x, ttExpiry := some (now + 10 * 60 * 1000) }) := by
    simp only [getTempToken, hx, if_neg hxne]
  rw [h3]
  rfl

theorem getCachedTempToken_fresh (env : AuthEnv) (now : Nat) (c : TokenCache)
    (l x : String)
    (hmiss : (truthyStr c.tt && isCacheValid c.ttExpiry now) = false)
    (hmiss2 : (truthyStr c.sst && isCacheValid c.sstExpiry now) = false)
    (hl : env.loginToken = some l) (hlne : l ≠ "")
    (hx : env.exchangeToken = some x) (hxne : x ≠ "") :
    getCachedTempToken env now c =
      (.ok x,
       { sst := some l, sstExpiry := some (now + 14 * 24 * 60 * 60 * 1000),
         tt := some x, ttExpiry := some (now + 10 * 60 * 1000) }, ⟨1, 1⟩) := by
  unfold getCachedTempToken
  rw [if_neg (by simp [hmiss])]
  rw [if_pos (by rcases Bool.and_eq_false_iff.mp hmiss2 with h | h <;> simp [h])]
  have h1 : getSuperSecuredToken env now c =
      .ok { c with sst := some l,
                   sstExpiry := some (now + 14 * 24 * 60 * 60 * 1000) } := by
    simp only [getSuperSecuredToken, hl, if_neg hlne]
  rw [h1]
  dsimp only
  have h3 : getTempToken env now
      { c with sst := some l, sstExpiry := some (now + 14 * 24 * 60 * 60 * 1000) } =
      .ok (x, { sst := some l, sstExpiry := some (now + 14 * 24 * 60 * 60 * 1000),
                tt := some x, ttExpiry := some (now + 10 * 60 * 1000) }) := by
    simp only [getTempToken, hx, if_neg hxne]
  rw [h3]
  rfl

/-- C3: the cache validity check returns true iff the expiry is present and
`now < expiry - 60000`; in particular it is false on an absent expiry and
false at exactly `now = expiry - 60000`. -/
theorem claim_C3_cache_validity (expiry : Option Nat) (now : Nat) :
    (isCacheValid expiry now = true ↔
      ∃ e, expiry = some e ∧ (now : Int) < (e : Int) - 60000) ∧
    isCacheValid none now = false ∧
    (∀ e : Nat, (now : Int) = (e : Int) - 60000 →
      isCacheValid (some e) now = false) := by
  refine ⟨isCacheValid_iff expiry now, rfl, ?_⟩
  intro e he
  by_cases h0 : e = 0
  · simp [isCacheValid, h0]
  · simp only [isCacheValid, if_neg h0, decide_eq_false_iff_not, not_lt]
    omega

/-- C3 witness: at expiry 120000 the check is true at clock 0, false exactly
at the margin boundary 60000, and false with no expiry. -/
theorem claim_C3_cache_validity_witness :
    (isCacheValid (some 120000) 0 = true ↔
      ∃ e, (some 120000 : Option Nat) = some e ∧ (0 : Int) < (e : Int) - 60000) ∧
    isCacheValid none 60000 = false ∧
    isCacheValid (some 120000) 60000 = false :=
  ⟨(claim_C3_cache_validity (some 120000) 0).1,
   (claim_C3_cache_validity none 60000).2.1,
   (claim_C3_cache_validity (some 120000) 60000).2.2 120000 (by decide)⟩

/-- C8: after `invalidateTokenCache` every one of the four fields is absent
and the validity check is false for both token slots, whatever the prior
state and the clock. -/
theorem claim_C8_invalidate (c : TokenCache) (now : Nat) :
    (invalidateTokenCache c).sst = none ∧
    (invalidateTokenCache c).sstExpiry = none ∧
    (invalidateTokenCache c).tt = none ∧
    (invalidateTokenCache c).ttExpiry = none ∧
    isCacheValid (invalidateTokenCache c).ttExpiry now = false ∧
    isCacheValid (invalidateTokenCache c).sstExpiry now = false :=
  ⟨rfl, rfl, rfl, rfl, rfl, rfl⟩

/-- C1: `getCachedTempToken` with a valid cached TT returns it with zero
network calls; with an invalid TT but valid SST it makes exactly one exchange
call and no login; with both invalid it makes exactly one login then one
exchange call — each time returning the TT stored in the cache it leaves
behind. -/
theorem claim_C1_token_cache_paths (env : AuthEnv) (now : Nat) (c : TokenCache) :
    (∀ t, c.tt = some t → t ≠ "" → isCacheValid c.ttExpiry now = true →
      getCachedTempToken env now c = (.ok t, c, ⟨0, 0⟩)) ∧
    (∀ x, (truthyStr c.tt && isCacheValid c.ttExpiry now) = false →
      truthyStr c.sst = true → isCacheValid c.sstExpiry now = true →
      env.exchangeToken = some x → x ≠ "" →
      getCachedTempToken env now c =
        (.ok x, { c with tt := some x, ttExpiry := some (now + 10 * 60 * 1000) },
         ⟨0, 1⟩)) ∧
    (∀ l x, (truthyStr c.tt && isCacheValid c.ttExpiry now) = false →
      (truthyStr c.sst && isCacheValid c.sstExpiry now) = false →
      env.loginToken = some l → l ≠ "" →
      env.exchangeToken = some x → x ≠ "" →
      getCachedTempToken env now c =
        (.ok x,
         { sst := some l, sstExpiry := some (now + 14 * 24 * 60 * 60 * 1000),
           tt := some x, ttExpiry := some (now + 10 * 60 * 1000) }, ⟨1, 1⟩)) := by
  refine ⟨?_, ?_, ?_⟩
  · intro t ht htne hv
    have := getCachedTempToken_hit env now c (by rw [ht]; exact truthyStr_some htne) hv
    rw [this, ht]
    rfl
  · intro x hmiss hs hv hx hxne
    exact getCachedTempToken_exchange env now c x hmiss hs hv hx hxne
  · intro l x hmiss hmiss2 hl hlne hx hxne
    exact getCachedTempToken_fresh env now c l x hmiss hmiss2 hl hlne hx hxne

/-- C1 witness: the three paths at concrete caches and environments — a
cache hit with zero calls, an exchange-only refresh, and a full
login-plus-exchange refresh. -/
theorem claim_C1_token_cache_paths_witness :
    getCachedTempToken ⟨some "L", some "X"⟩ 5
        ⟨some "s", some 1000000, some "t", some 1000000⟩
      = (.ok "t", ⟨some "s", some 1000000, some "t", some 1000000⟩, ⟨0, 0⟩) ∧
    getCachedTempToken ⟨some "L", some "X"⟩ 5 ⟨some "s", some 1000000, none, none⟩
      = (.ok "X", ⟨some "s", some 1000000, some "X", some 600005⟩, ⟨0, 1⟩) ∧
    getCachedTempToken ⟨some "L", some "X"⟩ 5 emptyCache
      = (.ok "X", ⟨some "L", some 1209600005, some "X", some 600005⟩, ⟨1, 1⟩) :=
  ⟨(claim_C1_token_cache_paths ⟨some "L", some "X"⟩ 5
      ⟨some "s", some 1000000, some "t", some 1000000⟩).1 "t" rfl
      (by decide) (by decide),
   (claim_C1_token_cache_paths ⟨some "L", some "X"⟩ 5
      ⟨some "s", some 1000000, none, none⟩).2.1 "X" (by decide) (by decide)
      (by decide) rfl (by decide),
   (claim_C1_token_cache_paths ⟨some "L", some "X"⟩ 5 emptyCache).2.2 "L" "X"
      (by decide) (by decide) rfl (by decide) rfl (by decide)⟩

theorem downloadLoop_step (attempts : Nat → PollResult) (i fuel : Nat)
    (h : isNotReady (attempts i) = true) :
    downloadLoop attempts i (fuel + 1) =
      ((downloadLoop attempts (i + 1) fuel).1,
       (downloadLoop attempts (i + 1) fuel).2 + 1) := by
  cases hai : attempts i with
  | success status data =>
    rw [hai] at h
    simp only [isNotReady, beq_iff_eq] at h
    subst h
    simp [downloadLoop, hai]
  | failure e =>
    rw [hai] at h
    simp only [isNotReady, beq_iff_eq] at h
    simp [downloadLoop, hai, h]

theorem downloadLoop_skip (attempts : Nat → PollResult) :
    ∀ (k i fuel : Nat), k ≤ fuel →
    (∀ j, j < k → isNotReady (attempts (i + j)) = true) →
    downloadLoop attempts i fuel =
      ((downloadLoop attempts (i + k) (fuel - k)).1,
       (downloadLoop attempts (i + k) (fuel - k)).2 + k) := by
  intro k
  induction k with
  | zero => intro i fuel _ _; simp
  | succ n ih =>
    intro i fuel hk hnr
    cases fuel with
    | zero => omega
    | succ m =>
      have h0 : isNotReady (attempts i) = true := by
        have := hnr 0 (by omega)
        simpa using this
      rw [downloadLoop_step attempts i m h0]
      have hrec := ih (i + 1) m (by omega)
        (fun j hj => by
          have := hnr (j + 1) (by omega)
          have he : i + (j + 1) = i + 1 + j := by omega
          rwa [he] at this)
      rw [hrec]
      have he2 : i + 1 + n = i + (n + 1) := by omega
      have he3 : m - n = (m + 1) - (n + 1) := by omega
      rw [he2, he3]
      simp [Nat.add_assoc]

/-- C4: the poller runs up to 10 attempts at a 1000 ms interval; it returns
the payload of the first attempt that resolves with status 200 after any run
of not-ready (202) attempts, times out with the timeout error when all 10
attempts are not ready, and propagates immediately (no further polling GETs)
any rejection whose status is not 202. -/
theorem claim_C4_poller (attempts : Nat → PollResult) :
    maxAttempts = 10 ∧ intervalMs = 1000 ∧
    (∀ (N : Nat) (d : String), 1 ≤ N → N ≤ 10 →
      (∀ i, i < N - 1 → isNotReady (attempts i) = true) →
      attempts (N - 1) = .success 200 d →
      downloadReportCsv attempts = (.ok d, N)) ∧
    ((∀ i, i < 10 → isNotReady (attempts i) = true) →
      downloadReportCsv attempts = (.error timeoutError, 10)) ∧
    (∀ (N : Nat) (e : JsError), N < 10 →
      (∀ i, i < N → isNotReady (attempts i) = true) →
      attempts N = .failure e → e.status ≠ some 202 →
      downloadReportCsv attempts = (.error e, N + 1)) := by
  refine ⟨rfl, rfl, ?_, ?_, ?_⟩
  · intro N d h1 h10 hnr hd
    unfold downloadReportCsv maxAttempts
    rw [downloadLoop_skip attempts (N - 1) 0 10 (by omega)
      (fun j hj => by simpa using hnr j hj)]
    have hz : (0 : Nat) + (N - 1) = N - 1 := by omega
    have hf : 10 - (N - 1) = (10 - N) + 1 := by omega
    rw [hz, hf]
    rw [show downloadLoop attempts (N - 1) ((10 - N) + 1) = (.ok d, 1) from by
      simp [downloadLoop, hd]]
    simp
    omega
  · intro hnr
    unfold downloadReportCsv maxAttempts
    rw [downloadLoop_skip attempts 10 0 10 (by omega)
      (fun j hj => by simpa using hnr j hj)]
    simp [downloadLoop]
  · intro N e hN hnr he hstat
    unfold downloadReportCsv maxAttempts
    rw [downloadLoop_skip attempts N 0 10 (by omega)
      (fun j hj => by simpa using hnr j hj)]
    have hz : (0 : Nat) + N = N := by omega
    have hf : 10 - N = (9 - N) + 1 := by omega
    rw [hz, hf]
    rw [show downloadLoop attempts N ((9 - N) + 1) = (.error e, 1) from by
      simp [downloadLoop, he, hstat]]
    simp
    omega

/-- C4 witness: a payload arriving on the third attempt after two 202s, a
timeout after ten straight 202s, and a 500 rejection on the second attempt
propagating after one 202. -/
theorem claim_C4_poller_witness :
    downloadReportCsv
        (fun i => if i = 2 then .success 200 "csv" else .failure ⟨"wait", some 202⟩)
      = (.ok "csv", 3) ∧
    downloadReportCsv (fun _ => .failure ⟨"wait", some 202⟩)
      = (.error timeoutError, 10) ∧
    downloadReportCsv
        (fun i => if i = 1 then .failure ⟨"boom", some 500⟩
                  else .failure ⟨"wait", some 202⟩)
      = (.error ⟨"boom", some 500⟩, 2) :=
  ⟨(claim_C4_poller _).2.2.1 3 "csv" (by decide) (by decide)
      (by decide) (by decide),
   (claim_C4_poller _).2.2.2.1 (by decide),
   (claim_C4_poller _).2.2.2.2 1 ⟨"boom", some 500⟩ (by decide) (by decide)
      (by decide) (by decide)⟩

/-- C6: the parser yields the empty list on a non-string, empty, or at most
one-row input; rows after the header contribute their leading (optionally
quoted) field trimmed, rows with a blank or absent field are dropped, and
row order is kept with no deduplication. -/
theorem claim_C6_parse_rules :
    parseSegmentIds none = [] ∧
    parseSegmentIds (some "") = [] ∧
    (∀ s : String, (splitLinesChar (jsTrimList s.data)).length ≤ 1 →
      parseSegmentIds (some s) = []) ∧
    (∀ (s x : String), x ∈ parseSegmentIds (some s) → x ≠ "") ∧
    parseSegmentIds (some "header\n") = [] ∧
    parseSegmentIds (some "header\n  , \n42,b\n") = ["42"] ∧
    parseSegmentIds (some "header\n  42  ,b\n") = ["42"] ∧
    parseSegmentIds (some "header\nb,1\na,2\nb,3\n") = ["b", "a", "b"] := by
  refine ⟨rfl, rfl, ?_, ?_, by decide, by decide, by decide, by decide⟩
  · intro s h
    simp only [parseSegmentIds]
    by_cases hs : s = ""
    · rw [if_pos hs]
    · rw [if_neg hs, if_pos h]
  · intro s x hx
    simp only [parseSegmentIds] at hx
    by_cases hs : s = ""
    · rw [if_pos hs] at hx
      cases hx
    · rw [if_neg hs] at hx
      by_cases h1 : (splitLinesChar (jsTrimList s.data)).length ≤ 1
      · rw [if_pos h1] at hx
        cases hx
      · rw [if_neg h1] at hx
        have := (List.mem_filter.mp hx).2
        simpa using this

/-- C6 witness: the short-input clause applied to the header-only string
"h" and the nonempty-output clause applied to a concrete parse. -/
theorem claim_C6_parse_rules_witness :
    parseSegmentIds (some "h") = [] ∧ ("42" : String) ≠ "" :=
  ⟨(claim_C6_parse_rules).2.2.1 "h" (by decide),
   (claim_C6_parse_rules).2.2.2.1 "header\n42,b\n" "42" (by decide)⟩

/-- C7: parsing "header\n1,a\n2,b\n" yields ["1","2"], and the surrounding
double quotes are stripped: parsing "header\n\"123\",foo\n" yields ["123"]. -/
theorem claim_C7_parser_examples :
    parseSegmentIds (some "header\n1,a\n2,b\n") = ["1", "2"] ∧
    parseSegmentIds (some "header\n\"123\",foo\n") = ["123"] :=
  ⟨by decide, by decide⟩

theorem startsWithList_eq_true_iff (p : List Char) :
    ∀ s : List Char, startsWithList p s = true ↔ ∃ r, s = p ++ r := by
  induction p with
  | nil =>
    intro s
    simp [startsWithList]
  | cons a p ih =>
    intro s
    cases s with
    | nil =>
      simp [startsWithList]
    | cons b s' =>
      rw [startsWithList]
      simp only [Bool.and_eq_true, beq_iff_eq, ih, List.cons_append,
        List.cons.injEq]
      constructor
      · rintro ⟨rfl, r, rfl⟩
        exact ⟨r, rfl, rfl⟩
      · rintro ⟨r, rfl, rfl⟩
        exact ⟨rfl, r, rfl⟩

theorem includesList_eq_true_iff (pat : List Char) :
    ∀ s : List Char, includesList s pat = true ↔
      ∃ pre post, s = pre ++ (pat ++ post) := by
  intro s
  induction s with
  | nil =>
    rw [includesList]
    simp only [Bool.or_false, startsWithList_eq_true_iff]
    constructor
    · rintro ⟨r, hr⟩
      exact ⟨[], r, hr⟩
    · rintro ⟨pre, post, h⟩
      rcases List.append_eq_nil.mp h.symm with ⟨rfl, h2⟩
      exact ⟨post, by simpa using h⟩
  | cons c rest ih =>
    rw [includesList]
    simp only [Bool.or_eq_true, startsWithList_eq_true_iff, ih]
    constructor
    · rintro (⟨r, hr⟩ | ⟨pre, post, hp⟩)
      · exact ⟨[], r, by simpa using hr⟩
      · exact ⟨c :: pre, post, by simp [hp]⟩
    · rintro ⟨pre, post, hp⟩
      cases pre with
      | nil => exact Or.inl ⟨post, by simpa using hp⟩
      | cons q pre' =>
        right
        refine ⟨pre', post, ?_⟩
        have h2 := (List.cons.injEq c rest q (pre' ++ (pat ++ post))).mp (by simpa using hp)
        exact h2.2

/-- C10: an error is classified authentication-class exactly when its HTTP
status is 401 or 403 or its lowercased message contains "auth" or
"unauthorized"; consequently a zero-match lookup for the identifier
"auth-task" produces a not-found error that is classified as auth, and the
handler invalidates the cache and retries the pipeline. -/
theorem claim_C10_auth_classification :
    (∀ e : JsError, isAuthError e = true ↔
      (e.status = some 401 ∨ e.status = some 403 ∨
       (∃ pre post, toLowerList e.message.data = pre ++ ("auth".data ++ post)) ∨
       (∃ pre post,
         toLowerList e.message.data = pre ++ ("unauthorized".data ++ post)))) ∧
    isAuthError (notFoundError "auth-task") = true ∧
    notFoundEnv.pipe1.validElements = .ok [] ∧
    (handlerCore notFoundEnv "auth-task" hitCache).didInvalidate = true ∧
    (handlerCore notFoundEnv "auth-task" hitCache).attempts = 2 ∧
    (handlerCore notFoundEnv "auth-task" hitCache).auth2Counts = ⟨1, 1⟩ := by
  refine ⟨?_, by decide, rfl, by decide, by decide, by decide⟩
  intro e
  simp only [isAuthError, Bool.or_eq_true, beq_iff_eq, includesList_eq_true_iff]
  rw [or_assoc, or_assoc]

/-- C2: when the pipeline fails after a token obtained from the cache, an
authentication-classified failure makes the handler invalidate the cache,
re-authenticate from scratch (one login, one exchange) and rerun the
pipeline exactly once, returning that second outcome; a failure not
classified as authentication propagates at once with a single attempt and
no invalidation. -/
theorem claim_C2_auth_retry (henv : HandlerEnv) (taskSid : String)
    (c0 : TokenCache) (t : String) (e : JsError) (p1 : PipeCounts)
    (htt : c0.tt = some t) (htne : t ≠ "")
    (hv : isCacheValid c0.ttExpiry henv.now1 = true)
    (hq : runPipeline henv.pipe1 taskSid = (.error e, p1)) :
    (∀ l x, isAuthError e = true →
      henv.auth2.loginToken = some l → l ≠ "" →
      henv.auth2.exchangeToken = some x → x ≠ "" →
      (handlerCore henv taskSid c0).didInvalidate = true ∧
      (handlerCore henv taskSid c0).auth2Counts = ⟨1, 1⟩ ∧
      (handlerCore henv taskSid c0).attempts = 2 ∧
      ((∃ ids, (runPipeline henv.pipe2 taskSid).1 = .ok ids ∧
          (handlerCore henv taskSid c0).status = 200 ∧
          (handlerCore henv taskSid c0).body = .ok ids) ∨
       (∃ e2, (runPipeline henv.pipe2 taskSid).1 = .error e2 ∧
          (handlerCore henv taskSid c0).status = 500 ∧
          (handlerCore henv taskSid c0).body = .error e2.message))) ∧
    (isAuthError e = false →
      (handlerCore henv taskSid c0).status = 500 ∧
      (handlerCore henv taskSid c0).body = .error e.message ∧
      (handlerCore henv taskSid c0).attempts = 1 ∧
      (handlerCore henv taskSid c0).didInvalidate = false ∧
      (handlerCore henv taskSid c0).auth2Counts = noAuthCalls) := by
  have htr : truthyStr c0.tt = true := by rw [htt]; exact truthyStr_some htne
  have hhit := getCachedTempToken_hit henv.auth1 henv.now1 c0 htr hv
  constructor
  · intro l x hAuth hl hlne hx hxne
    have hfresh := getCachedTempToken_fresh henv.auth2 henv.now2
      (invalidateTokenCache c0) l x rfl rfl hl hlne hx hxne
    rcases hq2 : runPipeline henv.pipe2 taskSid with ⟨res2, p2⟩
    cases res2 with
    | ok ids =>
      have hout : handlerCore henv taskSid c0 =
          ⟨200, .ok ids,
           ⟨some l, some (henv.now2 + 14 * 24 * 60 * 60 * 1000),
            some x, some (henv.now2 + 10 * 60 * 1000)⟩,
           2, true, ⟨0, 0⟩, ⟨1, 1⟩, p1, p2⟩ := by
        unfold handlerCore
        rw [hhit]
        dsimp only
        rw [hq]
        dsimp only
        rw [if_pos (by rw [hAuth, htr]; rfl)]
        rw [hfresh]
        dsimp only
        rw [hq2]
      exact ⟨by rw [hout], by rw [hout], by rw [hout],
        Or.inl ⟨ids, by simp [hq2], by rw [hout], by rw [hout]⟩⟩
    | error e2 =>
      have hout : handlerCore henv taskSid c0 =
          ⟨500, .error e2.message,
           ⟨some l, some (henv.now2 + 14 * 24 * 60 * 60 * 1000),
            some x, some (henv.now2 + 10 * 60 * 1000)⟩,
           2, true, ⟨0, 0⟩, ⟨1, 1⟩, p1, p2⟩ := by
        unfold handlerCore
        rw [hhit]
        dsimp only
        rw [hq]
        dsimp only
        rw [if_pos (by rw [hAuth, htr]; rfl)]
        rw [hfresh]
        dsimp only
        rw [hq2]
      exact ⟨by rw [hout], by rw [hout], by rw [hout],
        Or.inr ⟨e2, by simp [hq2], by rw [hout], by rw [hout]⟩⟩
  · intro hAuthF
    have hout : handlerCore henv taskSid c0 =
        ⟨500, .error e.message, c0, 1, false, ⟨0, 0⟩, noAuthCalls, p1,
         noPipeCalls⟩ := by
      unfold handlerCore
      rw [hhit]
      dsimp only
      rw [hq]
      dsimp only
      rw [if_neg (by rw [hAuthF]; simp)]
    exact ⟨by rw [hout], by rw [hout], by rw [hout], by rw [hout], by rw [hout]⟩

/-- C2 witness: a 401 rejection on the first attempt while holding a cached
token leads to invalidation, a fresh login-plus-exchange, and a successful
second attempt. -/
theorem claim_C2_auth_retry_witness :
    (handlerCore retry401Env "W" hitCache).didInvalidate = true ∧
    (handlerCore retry401Env "W" hitCache).auth2Counts = ⟨1, 1⟩ ∧
    (handlerCore retry401Env "W" hitCache).attempts = 2 ∧
    ((∃ ids, (runPipeline retry401Env.pipe2 "W").1 = .ok ids ∧
        (handlerCore retry401Env "W" hitCache).status = 200 ∧
        (handlerCore retry401Env "W" hitCache).body = .ok ids) ∨
     (∃ e2, (runPipeline retry401Env.pipe2 "W").1 = .error e2 ∧
        (handlerCore retry401Env "W" hitCache).status = 500 ∧
        (handlerCore retry401Env "W" hitCache).body = .error e2.message)) :=
  (claim_C2_auth_retry retry401Env "W" hitCache "tt0"
      ⟨"Request failed with status code 401", some 401⟩ ⟨1, 0, 0⟩
      rfl (by decide) (by decide) rfl).1 "SST1" "TT1" (by decide) rfl
      (by decide) rfl (by decide)

/-- C5 (amended): when the Filter Resolver matches zero elements the lookup
fails with the not-found error, the execute request is never issued
(`executeCalls = 0`), and — provided that not-found error is not classified
authentication-class by `isAuthError` — the failure is not retried. -/
theorem claim_C5_notfound_no_retry (henv : HandlerEnv) (taskSid : String)
    (c0 : TokenCache) (tok : String)
    (htok : (getCachedTempToken henv.auth1 henv.now1 c0).1 = .ok tok)
    (hempty : henv.pipe1.validElements = .ok [])
    (hnoauth : isAuthError (notFoundError taskSid) = false) :
    (handlerCore henv taskSid c0).status = 500 ∧
    (handlerCore henv taskSid c0).body = .error (notFoundError taskSid).message ∧
    (handlerCore henv taskSid c0).attempts = 1 ∧
    (handlerCore henv taskSid c0).didInvalidate = false ∧
    (handlerCore henv taskSid c0).pipe1Counts = ⟨1, 0, 0⟩ ∧
    (handlerCore henv taskSid c0).pipe2Counts = noPipeCalls := by
  have hrp : runPipeline henv.pipe1 taskSid =
      (.error (notFoundError taskSid), ⟨1, 0, 0⟩) := by
    simp [runPipeline, executeReport, findExternalIdElements, hempty]
  rcases hg : getCachedTempToken henv.auth1 henv.now1 c0 with ⟨res, c1, k1⟩
  rw [hg] at htok
  simp only at htok
  subst htok
  have hout : handlerCore henv taskSid c0 =
      ⟨500, .error (notFoundError taskSid).message, c1, 1, false, k1,
       noAuthCalls, ⟨1, 0, 0⟩, noPipeCalls⟩ := by
    unfold handlerCore
    rw [hg]
    dsimp only
    rw [hrp]
    dsimp only
    rw [if_neg (by rw [hnoauth]; simp)]
  exact ⟨by rw [hout], by rw [hout], by rw [hout], by rw [hout], by rw [hout],
    by rw [hout]⟩

/-- C5 witness: the identifier "WT123" matches zero elements; the lookup
fails with the embedded not-found message after a single attempt, with no
execute call and no retry. -/
theorem claim_C5_notfound_no_retry_witness :
    (handlerCore notFoundEnv "WT123" hitCache).status = 500 ∧
    (handlerCore notFoundEnv "WT123" hitCache).body
      = .error (notFoundError "WT123").message ∧
    (handlerCore notFoundEnv "WT123" hitCache).attempts = 1 ∧
    (handlerCore notFoundEnv "WT123" hitCache).didInvalidate = false ∧
    (handlerCore notFoundEnv "WT123" hitCache).pipe1Counts = ⟨1, 0, 0⟩ ∧
    (handlerCore notFoundEnv "WT123" hitCache).pipe2Counts = noPipeCalls :=
  claim_C5_notfound_no_retry notFoundEnv "WT123" hitCache "tt0" rfl rfl
    (by decide)

/-- C5 counterexample: the claim's "the failure is not retried" is false as
universally stated — the zero-match identifier "auth-task" IS retried (two
pipeline attempts with a second resolve call and cache invalidation),
because the not-found message embeds the identifier and so contains "auth". -/
theorem claim_C5_counterexample :
    notFoundEnv.pipe1.validElements = .ok [] ∧
    (handlerCore notFoundEnv "auth-task" hitCache).attempts = 2 ∧
    (handlerCore notFoundEnv "auth-task" hitCache).didInvalidate = true ∧
    (handlerCore notFoundEnv "auth-task" hitCache).pipe2Counts.resolveCalls = 1 ∧
    (handlerCore notFoundEnv "auth-task" hitCache).body
      = .error (notFoundError "auth-task").message :=
  ⟨rfl, by decide, by decide, by decide, rfl⟩

theorem cacheInv_empty : CacheInv emptyCache := by
  refine ⟨by simp [emptyCache], by simp [emptyCache], ?_, ?_⟩ <;>
    intro a h <;> simp [emptyCache] at h

theorem cacheInv_token_step (env : AuthEnv) (now : Nat) (c : TokenCache)
    (h : CacheInv c) : CacheInv (getCachedTempToken env now c).2.1 := by
  obtain ⟨h1, h2, h3, h4⟩ := h
  unfold getCachedTempToken
  by_cases hc1 : (truthyStr c.tt && isCacheValid c.ttExpiry now) = true
  · rw [if_pos hc1]
    exact ⟨h1, h2, h3, h4⟩
  · rw [if_neg hc1]
    have hbound : ∀ te, c.ttExpiry = some te → te ≤ now + 60000 := by
      intro te hte
      have hct : ∃ t, c.tt = some t := by
        cases hcn : c.tt with
        | none => rw [h1.mp hcn] at hte; simp at hte
        | some t => exact ⟨t, rfl⟩
      obtain ⟨t, hct⟩ := hct
      have htr : truthyStr c.tt = true := by
        rw [hct]; exact truthyStr_some (h3 t hct)
      have hval : isCacheValid c.ttExpiry now = false := by
        cases hvv : isCacheValid c.ttExpiry now
        · rfl
        · exact absurd (by rw [htr, hvv]; rfl) hc1
      rw [hte] at hval
      exact isCacheValid_false_le hval
    by_cases hs : truthyStr c.sst = true ∧ isCacheValid c.sstExpiry now = true
    · obtain ⟨hs1, hs2⟩ := hs
      rw [if_neg (by rw [hs1, hs2]; simp)]
      cases hxm : getTempToken env now c with
      | error e => exact ⟨h1, h2, h3, h4⟩
      | ok p =>
        obtain ⟨x, c2⟩ := p
        obtain ⟨hxne, hxtok, hc2eq⟩ := getTempToken_ok hxm
        subst hc2eq
        refine ⟨by simp, h2, ?_, ?_⟩
        · intro t ht
          simp only [Option.some.injEq] at ht
          subst ht
          exact hxne
        · intro te hte
          simp only [Option.some.injEq] at hte
          subst hte
          obtain ⟨se, hse, hlt⟩ := (isCacheValid_iff _ _).mp hs2
          exact ⟨se, hse, by omega⟩
    · rw [if_pos (by
        cases ha : truthyStr c.sst <;>
          cases hb : isCacheValid c.sstExpiry now <;> simp_all)]
      cases hl : getSuperSecuredToken env now c with
      | error e =>
        dsimp only
        exact ⟨h1, h2, h3, h4⟩
      | ok c1 =>
        dsimp only
        obtain ⟨ltok, hlne, hltok, hc1eq⟩ := getSuperSecuredToken_ok hl
        subst hc1eq
        cases hxm : getTempToken env now
            { c with sst := some ltok,
                     sstExpiry := some (now + 14 * 24 * 60 * 60 * 1000) } with
        | error e =>
          dsimp only
          refine ⟨h1, by simp, h3, ?_⟩
          intro te hte
          exact ⟨now + 14 * 24 * 60 * 60 * 1000, rfl, by
            have := hbound te hte
            omega⟩
        | ok p =>
          obtain ⟨x, c2⟩ := p
          dsimp only
          obtain ⟨hxne, hxtok, hc2eq⟩ := getTempToken_ok hxm
          subst hc2eq
          refine ⟨by simp, by simp, ?_, ?_⟩
          · intro t ht
            simp only [Option.some.injEq] at ht
            subst ht
            exact hxne
          · intro te hte
            simp only [Option.some.injEq] at hte
            subst hte
            exact ⟨now + 14 * 24 * 60 * 60 * 1000, rfl, by omega⟩

theorem cacheInv_reachable : ∀ c, ReachableCache c → CacheInv c := by
  intro c h
  induction h with
  | init => exact cacheInv_empty
  | token env now hr ih => exact cacheInv_token_step env now _ ih
  | inval hr ih => exact cacheInv_empty

theorem token_refresh_pairs (env : AuthEnv) (now : Nat) (c : TokenCache) :
    (((getCachedTempToken env now c).2.1.tt = c.tt ∧
      (getCachedTempToken env now c).2.1.ttExpiry = c.ttExpiry) ∨
     (∃ x, x ≠ "" ∧ (getCachedTempToken env now c).2.1.tt = some x ∧
       (getCachedTempToken env now c).2.1.ttExpiry
         = some (now + 10 * 60 * 1000))) ∧
    (((getCachedTempToken env now c).2.1.sst = c.sst ∧
      (getCachedTempToken env now c).2.1.sstExpiry = c.sstExpiry) ∨
     (∃ l, l ≠ "" ∧ (getCachedTempToken env now c).2.1.sst = some l ∧
       (getCachedTempToken env now c).2.1.sstExpiry
         = some (now + 14 * 24 * 60 * 60 * 1000))) := by
  unfold getCachedTempToken
  by_cases hc1 : (truthyStr c.tt && isCacheValid c.ttExpiry now) = true
  · rw [if_pos hc1]
    exact ⟨Or.inl ⟨rfl, rfl⟩, Or.inl ⟨rfl, rfl⟩⟩
  · rw [if_neg hc1]
    by_cases hs : truthyStr c.sst = true ∧ isCacheValid c.sstExpiry now = true
    · obtain ⟨hs1, hs2⟩ := hs
      rw [if_neg (by rw [hs1, hs2]; simp)]
      cases hxm : getTempToken env now c with
      | error e => exact ⟨Or.inl ⟨rfl, rfl⟩, Or.inl ⟨rfl, rfl⟩⟩
      | ok p =>
        obtain ⟨x, c2⟩ := p
        dsimp only
        obtain ⟨hxne, hxtok, hc2eq⟩ := getTempToken_ok hxm
        subst hc2eq
        exact ⟨Or.inr ⟨x, hxne, rfl, rfl⟩, Or.inl ⟨rfl, rfl⟩⟩
    · rw [if_pos (by
        cases ha : truthyStr c.sst <;>
          cases hb : isCacheValid c.sstExpiry now <;> simp_all)]
      cases hl : getSuperSecuredToken env now c with
      | error e =>
        dsimp only
        exact ⟨Or.inl ⟨rfl, rfl⟩, Or.inl ⟨rfl, rfl⟩⟩
      | ok c1 =>
        dsimp only
        obtain ⟨ltok, hlne, hltok, hc1eq⟩ := getSuperSecuredToken_ok hl
        subst hc1eq
        cases hxm : getTempToken env now
            { c with sst := some ltok,
                     sstExpiry := some (now + 14 * 24 * 60 * 60 * 1000) } with
        | error e =>
          dsimp only
          exact ⟨Or.inl ⟨rfl, rfl⟩, Or.inr ⟨ltok, hlne, rfl, rfl⟩⟩
        | ok p =>
          obtain ⟨x, c2⟩ := p
          dsimp only
          obtain ⟨hxne, hxtok, hc2eq⟩ := getTempToken_ok hxm
          subst hc2eq
          exact ⟨Or.inr ⟨x, hxne, rfl, rfl⟩, Or.inr ⟨ltok, hlne, rfl, rfl⟩⟩

/-- C9 (amended): in every reachable cache state each token is absent
exactly together with its expiry and the access expiry exceeds the session
expiry by at most 540000 ms — the claimed `access expiry ≤ session expiry`
only holds with that 9-minute slack, since a token issued near the end of
the session's validity window outlives it; and each `getCachedTempToken`
call leaves a token slot untouched or overwrites its token and expiry
together, never partially. -/
theorem claim_C9_cache_invariant :
    (∀ c, ReachableCache c → CacheInv c) ∧
    (∀ (env : AuthEnv) (now : Nat) (c : TokenCache),
      (((getCachedTempToken env now c).2.1.tt = c.tt ∧
        (getCachedTempToken env now c).2.1.ttExpiry = c.ttExpiry) ∨
       (∃ x, x ≠ "" ∧ (getCachedTempToken env now c).2.1.tt = some x ∧
         (getCachedTempToken env now c).2.1.ttExpiry
           = some (now + 10 * 60 * 1000))) ∧
      (((getCachedTempToken env now c).2.1.sst = c.sst ∧
        (getCachedTempToken env now c).2.1.sstExpiry = c.sstExpiry) ∨
       (∃ l, l ≠ "" ∧ (getCachedTempToken env now c).2.1.sst = some l ∧
         (getCachedTempToken env now c).2.1.sstExpiry
           = some (now + 14 * 24 * 60 * 60 * 1000)))) :=
  ⟨cacheInv_reachable, token_refresh_pairs⟩

/-- C9 witness: the invariant at the initial reachable state and the
pairwise-update property at a concrete refresh from the empty cache. -/
theorem claim_C9_cache_invariant_witness :
    CacheInv emptyCache ∧
    (((getCachedTempToken goodAuth 5 emptyCache).2.1.tt = emptyCache.tt ∧
      (getCachedTempToken goodAuth 5 emptyCache).2.1.ttExpiry
        = emptyCache.ttExpiry) ∨
     (∃ x, x ≠ "" ∧ (getCachedTempToken goodAuth 5 emptyCache).2.1.tt = some x ∧
       (getCachedTempToken goodAuth 5 emptyCache).2.1.ttExpiry
         = some (5 + 10 * 60 * 1000))) ∧
    (((getCachedTempToken goodAuth 5 emptyCache).2.1.sst = emptyCache.sst ∧
      (getCachedTempToken goodAuth 5 emptyCache).2.1.sstExpiry
        = emptyCache.sstExpiry) ∨
     (∃ l, l ≠ "" ∧ (getCachedTempToken goodAuth 5 emptyCache).2.1.sst = some l ∧
       (getCachedTempToken goodAuth 5 emptyCache).2.1.sstExpiry
         = some (5 + 14 * 24 * 60 * 60 * 1000))) :=
  ⟨claim_C9_cache_invariant.1 emptyCache ReachableCache.init,
   claim_C9_cache_invariant.2 goodAuth 5 emptyCache⟩

/-- C9 counterexample: a cache state reachable by two `getCachedTempToken`
calls (login and exchange at time 0, then an exchange-only refresh at time
1209530000, late in the session window) in which the access-token expiry
1210130000 strictly exceeds the session-token expiry 1209600000 — refuting
`access expiry ≤ session expiry` as stated. -/
theorem claim_C9_counterexample :
    ReachableCache ⟨some "SST1", some 1209600000, some "TT1", some 1210130000⟩ ∧
    (⟨some "SST1", some 1209600000, some "TT1", some 1210130000⟩
        : TokenCache).sstExpiry = some 1209600000 ∧
    (⟨some "SST1", some 1209600000, some "TT1", some 1210130000⟩
        : TokenCache).ttExpiry = some 1210130000 ∧
    1209600000 < 1210130000 := by
  refine ⟨?_, rfl, rfl, by norm_num⟩
  have h1 : ReachableCache (getCachedTempToken goodAuth 0 emptyCache).2.1 :=
    ReachableCache.token goodAuth 0 ReachableCache.init
  have h2 : ReachableCache
      (getCachedTempToken goodAuth 1209530000
        (getCachedTempToken goodAuth 0 emptyCache).2.1).2.1 :=
    ReachableCache.token goodAuth 1209530000 h1
  have he : (getCachedTempToken goodAuth 1209530000
      (getCachedTempToken goodAuth 0 emptyCache).2.1).2.1
      = ⟨some "SST1", some 1209600000, some "TT1", some 1210130000⟩ := by decide
  rwa [he] at h2
